import Mathlib

/-!
Verification development for the Bybit V5 adapter (`pulse_bybit/adapter.py`).

The adapter's data and operations are shallowly embedded:
* `PyValue` models the heterogeneous Python/JSON values that appear in
  protocol-message parameter mappings and in parsed response bodies.
* The request builders, `to_native`, the signing routines and `call_api`
  are translated function-by-function from the source; fallible code is
  modelled with `Except PyErr`, where `PyErr` distinguishes the adapter
  error kind, the connection error kind, and Python attribute errors
  (calling `.upper()` on a non-string).
* SHA-256, HMAC-SHA256 and hex encoding are implemented executably over
  byte lists (natural numbers below 256) so that signing theorems talk
  about the real signature computation.

Character-level caveat: `.upper()` is modelled by ASCII upper-casing,
matching Python on the ASCII symbols the adapter handles.
-/

/-- Python/JSON heterogeneous values: strings, ints, bools, None/null,
lists and (insertion-ordered) dicts with string keys. -/
inductive PyValue where
  | str (s : String)
  | int (n : Int)
  | bool (b : Bool)
  | null
  | list (xs : List PyValue)
  | obj (fields : List (String × PyValue))

/-- A parameter mapping / JSON object body: insertion-ordered dict with
unique string keys, modelled as an association list. -/
abbrev Params := List (String × PyValue)

/-- Python truthiness of a value (`if symbol:` etc.). -/
def pyTruthy : PyValue → Bool
  | .str s => s ≠ ""
  | .int n => n ≠ 0
  | .bool b => b
  | .null => false
  | .list xs => !xs.isEmpty
  | .obj fs => !fs.isEmpty

mutual

/-- Python `repr` of a value (used by `str()` on containers). -/
def pyRepr : PyValue → String
  | .str s => "\x27" ++ s ++ "\x27"
  | .int n => toString n
  | .bool true => "True"
  | .bool false => "False"
  | .null => "None"
  | .list xs => "[" ++ pyReprList xs ++ "]"
  | .obj fs => "\x7b" ++ pyReprFields fs ++ "\x7d"

/-- Comma-joined `repr`s of list elements. -/
def pyReprList : List PyValue → String
  | [] => ""
  | [x] => pyRepr x
  | x :: y :: xs => pyRepr x ++ ", " ++ pyReprList (y :: xs)

/-- Comma-joined `repr`s of dict items. -/
def pyReprFields : List (String × PyValue) → String
  | [] => ""
  | [(k, v)] => "\x27" ++ k ++ "\x27: " ++ pyRepr v
  | (k, v) :: y :: xs => "\x27" ++ k ++ "\x27: " ++ pyRepr v ++ ", " ++ pyReprFields (y :: xs)

end

/-- Python `str()` of a value, as used by f-string interpolation and by
`str(params["quantity"])`. -/
def pyStr : PyValue → String
  | .str s => s
  | .int n => toString n
  | .bool true => "True"
  | .bool false => "False"
  | .null => "None"
  | .list xs => pyRepr (.list xs)
  | .obj fs => pyRepr (.obj fs)

/-- Python `v == "lit"` for a heterogeneous value against a string literal
(cross-type equality is `False` in Python). -/
def pyEqStr (v : PyValue) (s : String) : Bool :=
  match v with
  | .str t => t == s
  | _ => false

/-- `dict.get(k)`: first binding of the key, if any. -/
def pget (ps : Params) (k : String) : Option PyValue :=
  ps.lookup k

/-- `dict.get(k, d)`: binding of the key, or the default. -/
def pgetD (ps : Params) (k : String) (d : PyValue) : PyValue :=
  (ps.lookup k).getD d

/-- `k in dict`. -/
def pmem (ps : Params) (k : String) : Bool :=
  (ps.lookup k).isSome

/-- ASCII upper-casing of one character. -/
def charUpper (c : Char) : Char :=
  if 97 ≤ c.toNat ∧ c.toNat ≤ 122 then Char.ofNat (c.toNat - 32) else c

/-- Python `str.upper()`, restricted to ASCII (the adapter symbol
alphabet). -/
def pyUpper (s : String) : String := String.mk (s.data.map charUpper)

/-! ## SHA-256, HMAC-SHA256 and hex encoding (executable, byte lists) -/

/-- Truncation to a 32-bit word. -/
def w32 (n : Nat) : Nat := n % 4294967296

/-- 32-bit right rotation. -/
def rotr (n x : Nat) : Nat := w32 ((x >>> n) ||| (x <<< (32 - n)))

/-- SHA-256 small sigma 0. -/
def ssig0 (x : Nat) : Nat := (rotr 7 x) ^^^ (rotr 18 x) ^^^ (x >>> 3)

/-- SHA-256 small sigma 1. -/
def ssig1 (x : Nat) : Nat := (rotr 17 x) ^^^ (rotr 19 x) ^^^ (x >>> 10)

/-- SHA-256 big sigma 0. -/
def bsig0 (x : Nat) : Nat := (rotr 2 x) ^^^ (rotr 13 x) ^^^ (rotr 22 x)

/-- SHA-256 big sigma 1. -/
def bsig1 (x : Nat) : Nat := (rotr 6 x) ^^^ (rotr 11 x) ^^^ (rotr 25 x)

/-- SHA-256 round constants. -/
def K256 : List Nat :=
  [1116352408, 1899447441, 3049323471, 3921009573, 961987163,
   1508970993, 2453635748, 2870763221, 3624381080, 310598401,
   607225278, 1426881987, 1925078388, 2162078206, 2614888103,
   3248222580, 3835390401, 4022224774, 264347078, 604807628,
   770255983, 1249150122, 1555081692, 1996064986, 2554220882,
   2821834349, 2952996808, 3210313671, 3336571891, 3584528711,
   113926993, 338241895, 666307205, 773529912, 1294757372,
   1396182291, 1695183700, 1986661051, 2177026350, 2456956037,
   2730485921, 2820302411, 3259730800, 3345764771, 3516065817,
   3600352804, 4094571909, 275423344, 430227734, 506948616,
   659060556, 883997877, 958139571, 1322822218, 1537002063,
   1747873779, 1955562222, 2024104815, 2227730452, 2361852424,
   2428436474, 2756734187, 3204031479, 3329325298]

/-- SHA-256 working state: eight 32-bit words. -/
structure H8 where
  a : Nat
  b : Nat
  c : Nat
  d : Nat
  e : Nat
  f : Nat
  g : Nat
  h : Nat

/-- SHA-256 initial hash value. -/
def sha256Init : H8 :=
  ⟨1779033703, 3144134277, 1013904242,
   2773480762, 1359893119, 2600822924,
   528734635, 1541459225⟩

/-- One SHA-256 compression round, taking the round constant paired with
the schedule word. -/
def sha256Round (st : H8) (kw : Nat × Nat) : H8 :=
  let ch := (st.e &&& st.f) ^^^ ((st.e ^^^ 0xffffffff) &&& st.g)
  let t1 := w32 (st.h + bsig1 st.e + ch + kw.1 + kw.2)
  let mj := (st.a &&& st.b) ^^^ (st.a &&& st.c) ^^^ (st.b &&& st.c)
  let t2 := w32 (bsig0 st.a + mj)
  ⟨w32 (t1 + t2), st.a, st.b, st.c, w32 (st.d + t1), st.e, st.f, st.g⟩

/-- Big-endian 32-bit words from bytes. -/
def bytesToWords : List Nat → List Nat
  | b0 :: b1 :: b2 :: b3 :: rest =>
      (((b0 * 256 + b1) * 256 + b2) * 256 + b3) :: bytesToWords rest
  | _ => []

/-- Extend a 16-word block schedule by `k` more words. -/
def extendSchedule (w : List Nat) : Nat → List Nat
  | 0 => w
  | k + 1 =>
      let n := w.length
      let wi := w32 ((w.getD (n - 16) 0) + ssig0 (w.getD (n - 15) 0) +
                     (w.getD (n - 7) 0) + ssig1 (w.getD (n - 2) 0))
      extendSchedule (w ++ [wi]) k

/-- Compress one 64-byte block into the state. -/
def compressBlock (st : H8) (block : List Nat) : H8 :=
  let ws := extendSchedule (bytesToWords block) 48
  let t := (K256.zip ws).foldl sha256Round st
  ⟨w32 (st.a + t.a), w32 (st.b + t.b), w32 (st.c + t.c), w32 (st.d + t.d),
   w32 (st.e + t.e), w32 (st.f + t.f), w32 (st.g + t.g), w32 (st.h + t.h)⟩

/-- Big-endian 8-byte encoding of a length in bits. -/
def len64be (n : Nat) : List Nat :=
  [(n >>> 56) &&& 255, (n >>> 48) &&& 255, (n >>> 40) &&& 255, (n >>> 32) &&& 255,
   (n >>> 24) &&& 255, (n >>> 16) &&& 255, (n >>> 8) &&& 255, n &&& 255]

/-- SHA-256 message padding. -/
def sha256Pad (msg : List Nat) : List Nat :=
  let l := msg.length
  msg ++ [0x80] ++ List.replicate ((119 - (l % 64)) % 64) 0 ++ len64be (8 * l)

/-- Split a byte list into successive 64-byte blocks; the fuel bounds the
number of blocks (each block consumes at least one list element, so the
list length always suffices). -/
def chunksAux : Nat → List Nat → List (List Nat)
  | 0, _ => []
  | _ + 1, [] => []
  | fuel + 1, b :: rest => ((b :: rest).take 64) :: chunksAux fuel ((b :: rest).drop 64)

/-- Split a byte list into successive 64-byte blocks. -/
def chunks64 (l : List Nat) : List (List Nat) :=
  chunksAux l.length l

/-- Big-endian bytes of one 32-bit word. -/
def word4 (x : Nat) : List Nat :=
  [(x >>> 24) &&& 255, (x >>> 16) &&& 255, (x >>> 8) &&& 255, x &&& 255]

/-- Digest bytes of a final state. -/
def digestBytes (st : H8) : List Nat :=
  [st.a, st.b, st.c, st.d, st.e, st.f, st.g, st.h].flatMap word4

/-- SHA-256 of a byte list. -/
def sha256 (msg : List Nat) : List Nat :=
  digestBytes ((chunks64 (sha256Pad msg)).foldl compressBlock sha256Init)

/-- Lowercase hex digit. -/
def hexDigit (n : Nat) : Char :=
  ("0123456789abcdef".data.getD n '0')

/-- Lowercase hex encoding of a byte list (`hexdigest`). -/
def hexOfBytes (bs : List Nat) : String :=
  String.mk (bs.flatMap fun b => [hexDigit (b / 16), hexDigit (b % 16)])

/-- UTF-8 encoding of one character. -/
def utf8Char (c : Char) : List Nat :=
  let n := c.toNat
  if n < 0x80 then [n]
  else if n < 0x800 then
    [0xc0 ||| (n >>> 6), 0x80 ||| (n &&& 0x3f)]
  else if n < 0x10000 then
    [0xe0 ||| (n >>> 12), 0x80 ||| ((n >>> 6) &&& 0x3f), 0x80 ||| (n &&& 0x3f)]
  else
    [0xf0 ||| (n >>> 18), 0x80 ||| ((n >>> 12) &&& 0x3f),
     0x80 ||| ((n >>> 6) &&& 0x3f), 0x80 ||| (n &&& 0x3f)]

/-- `str.encode("utf-8")`. -/
def strBytes (s : String) : List Nat :=
  s.data.flatMap utf8Char

/-- HMAC-SHA256 over byte lists (block size 64). -/
def hmacSha256 (key msg : List Nat) : List Nat :=
  let k1 := if key.length > 64 then sha256 key else key
  let k2 := k1 ++ List.replicate (64 - k1.length) 0
  let ipadKey := k2.map (fun b => b ^^^ 0x36)
  let opadKey := k2.map (fun b => b ^^^ 0x5c)
  sha256 (opadKey ++ sha256 (ipadKey ++ msg))

/-- `hmac.new(secret.encode(), msg.encode(), hashlib.sha256).hexdigest()`. -/
def hmacSha256Hex (secret msg : String) : String :=
  hexOfBytes (hmacSha256 (strBytes secret) (strBytes msg))

/-! ## JSON serialization (Python `json.dumps`) -/

/-- Four hex digits of a code point, for `\uXXXX` escapes. -/
def hex4 (n : Nat) : String :=
  String.mk [hexDigit ((n >>> 12) &&& 15), hexDigit ((n >>> 8) &&& 15),
             hexDigit ((n >>> 4) &&& 15), hexDigit (n &&& 15)]

/-- JSON escaping of one character, `ensure_ascii` style (BMP code
points; supplementary planes are approximated by a single escape). -/
def jsonEscChar (c : Char) : String :=
  if c = '"' then "\\\""
  else if c = '\\' then "\\\\"
  else if c = '\n' then "\\n"
  else if c = '\t' then "\\t"
  else if c = '\r' then "\\r"
  else if c.toNat = 8 then "\\b"
  else if c.toNat = 12 then "\\f"
  else if c.toNat < 32 || c.toNat > 126 then "\\u" ++ hex4 c.toNat
  else String.singleton c

/-- JSON string literal. -/
def jsonStr (s : String) : String :=
  "\"" ++ String.join (s.data.map jsonEscChar) ++ "\""

mutual

/-- JSON serialization parametrized by the item and key separators. -/
def jsonDumpsSep (isep ksep : String) : PyValue → String
  | .str s => jsonStr s
  | .int n => toString n
  | .bool true => "true"
  | .bool false => "false"
  | .null => "null"
  | .list xs => "[" ++ jsonListSep isep ksep xs ++ "]"
  | .obj fs => "\x7b" ++ jsonFieldsSep isep ksep fs ++ "\x7d"

/-- Serialized list elements joined by the item separator. -/
def jsonListSep (isep ksep : String) : List PyValue → String
  | [] => ""
  | [x] => jsonDumpsSep isep ksep x
  | x :: y :: xs => jsonDumpsSep isep ksep x ++ isep ++ jsonListSep isep ksep (y :: xs)

/-- Serialized object members joined by the item separator. -/
def jsonFieldsSep (isep ksep : String) : List (String × PyValue) → String
  | [] => ""
  | [(k, v)] => jsonStr k ++ ksep ++ jsonDumpsSep isep ksep v
  | (k, v) :: y :: xs =>
      jsonStr k ++ ksep ++ jsonDumpsSep isep ksep v ++ isep ++ jsonFieldsSep isep ksep (y :: xs)

end

/-- Python `json.dumps` with its default separators: a space after each
comma and after each colon. This is what `_sign_post` uses. -/
def jsonDumps : PyValue → String := jsonDumpsSep ", " ": "

/-- Claim-side serialization, following the claim words only: the
parameters as a COMPACT JSON object (no whitespace after separators), key
order as provided. Used to compare the claimed signing input with the
source's. -/
def specCompactJsonDumps : PyValue → String := jsonDumpsSep "," ":"

/-! ## Adapter constants and data model -/

/-- Bybit V5 API endpoints (`ENDPOINTS`). -/
def ENDPOINTS : List (String × String) :=
  [("tickers", "/v5/market/tickers"),
   ("kline", "/v5/market/kline"),
   ("orderbook", "/v5/market/orderbook"),
   ("server_time", "/v5/market/time"),
   ("place_order", "/v5/order/create"),
   ("cancel_order", "/v5/order/cancel"),
   ("order_detail", "/v5/order/realtime"),
   ("open_orders", "/v5/order/realtime"),
   ("wallet_balance", "/v5/account/wallet-balance")]

/-- `ENDPOINTS[key]`. -/
def endpointOf (k : String) : String :=
  (ENDPOINTS.lookup k).getD ""

/-- Map of PULSE actions to Bybit operations (`ACTION_MAP`). -/
def ACTION_MAP : List (String × String) :=
  [("ACT.QUERY.DATA", "query"),
   ("ACT.QUERY.STATUS", "order_status"),
   ("ACT.TRANSACT.REQUEST", "place_order"),
   ("ACT.CANCEL", "cancel_order"),
   ("ACT.QUERY.LIST", "open_orders"),
   ("ACT.QUERY.BALANCE", "wallet_balance")]

/-- The adapter's `supported_actions` property: the action-map keys. -/
def supported_actions : List String :=
  ACTION_MAP.map (fun kv => kv.1)

/-- Error kinds the adapter code can raise: `AdapterError`,
`AdapterConnectionError` (two distinct exception kinds from the protocol
library), and a Python `AttributeError` for `.upper()` on a non-string
(which no adapter handler catches inside `to_native`). -/
inductive PyErr where
  | adapterError (msg : String)
  | adapterConnectionError (msg : String)
  | attributeError (msg : String)
  deriving DecidableEq

/-- Native request descriptor: HTTP method, endpoint path, parameter
mapping and the signing flag. -/
structure NativeRequest where
  method : String
  endpoint : String
  params : Params
  signed : Bool

/-- `value.upper()`: succeeds on strings, raises `AttributeError`
otherwise. -/
def vUpper : PyValue → Except PyErr String
  | .str s => .ok (pyUpper s)
  | v => .error (.attributeError ("object has no attribute upper: " ++ pyStr v))

/-- Truthiness of `dict.get(k)`: `None` (absent) is falsy. -/
def optTruthy : Option PyValue → Bool
  | some v => pyTruthy v
  | none => false

/-! ## Request builders -/

/-- `_build_query_request`: market data query. -/
def buildQueryRequest (params : Params) : Except PyErr NativeRequest :=
  let symbol := pget params "symbol"
  let query_type := pgetD params "type" (.str "price")
  let category := pgetD params "category" (.str "spot")
  if pyEqStr query_type "price" || pyEqStr query_type "24h" then
    match symbol with
    | some v =>
      if pyTruthy v then
        match vUpper v with
        | .error e => .error e
        | .ok u =>
          .ok ⟨"GET", endpointOf "tickers", [("category", category), ("symbol", .str u)], false⟩
      else
        .ok ⟨"GET", endpointOf "tickers", [("category", category)], false⟩
    | none =>
      .ok ⟨"GET", endpointOf "tickers", [("category", category)], false⟩
  else if pyEqStr query_type "klines" then
    match symbol with
    | some v =>
      if pyTruthy v then
        match vUpper v with
        | .error e => .error e
        | .ok u =>
          .ok ⟨"GET", endpointOf "kline",
            [("category", category), ("symbol", .str u),
             ("interval", pgetD params "interval" (.str "60")),
             ("limit", pgetD params "limit" (.int 100))], false⟩
      else .error (.adapterError "Symbol required for klines query.")
    | none => .error (.adapterError "Symbol required for klines query.")
  else if pyEqStr query_type "depth" then
    match symbol with
    | some v =>
      if pyTruthy v then
        match vUpper v with
        | .error e => .error e
        | .ok u =>
          .ok ⟨"GET", endpointOf "orderbook",
            [("category", category), ("symbol", .str u),
             ("limit", pgetD params "limit" (.int 20))], false⟩
      else .error (.adapterError "Symbol required for depth query.")
    | none => .error (.adapterError "Symbol required for depth query.")
  else
    .error (.adapterError ("Unknown query type \x27" ++ pyStr query_type ++
      "\x27. Use: price, 24h, klines, depth."))

/-- `_build_order_request`: order placement. -/
def buildOrderRequest (params : Params) : Except PyErr NativeRequest :=
  if !(pmem params "symbol") then
    .error (.adapterError "Missing required field \x27symbol\x27 for order placement.")
  else if !(pmem params "side") then
    .error (.adapterError "Missing required field \x27side\x27 for order placement.")
  else if !(pmem params "quantity") then
    .error (.adapterError "Missing required field \x27quantity\x27 for order placement.")
  else
    let category := pgetD params "category" (.str "spot")
    match vUpper (pgetD params "symbol" .null) with
    | .error e => .error e
    | .ok symbolU =>
      match vUpper (pgetD params "side" .null) with
      | .error e => .error e
      | .ok sideU =>
        let side := if sideU == "BUY" then "Buy" else "Sell"
        let orderType := pgetD params "order_type" (.str "Market")
        let qty := pyStr (pgetD params "quantity" .null)
        match vUpper orderType with
        | .error e => .error e
        | .ok otU =>
          if otU == "LIMIT" then
            if !(pmem params "price") then
              .error (.adapterError "Price required for LIMIT orders.")
            else
              .ok ⟨"POST", endpointOf "place_order",
                [("category", category), ("symbol", .str symbolU), ("side", .str side),
                 ("orderType", .str "Limit"), ("qty", .str qty),
                 ("price", .str (pyStr (pgetD params "price" .null))),
                 ("timeInForce", pgetD params "time_in_force" (.str "GTC"))], true⟩
          else
            .ok ⟨"POST", endpointOf "place_order",
              [("category", category), ("symbol", .str symbolU), ("side", .str side),
               ("orderType", orderType), ("qty", .str qty)], true⟩

/-- `_build_cancel_request`: order cancellation. -/
def buildCancelRequest (params : Params) : Except PyErr NativeRequest :=
  if !(pmem params "symbol") then
    .error (.adapterError "Symbol required for order cancellation.")
  else if !(pmem params "order_id") then
    .error (.adapterError "Order ID required for cancellation.")
  else
    match vUpper (pgetD params "symbol" .null) with
    | .error e => .error e
    | .ok symbolU =>
      .ok ⟨"POST", endpointOf "cancel_order",
        [("category", pgetD params "category" (.str "spot")),
         ("symbol", .str symbolU),
         ("orderId", .str (pyStr (pgetD params "order_id" .null)))], true⟩

/-- `_build_status_request`: order status query. -/
def buildStatusRequest (params : Params) : Except PyErr NativeRequest :=
  if !(pmem params "symbol") then
    .error (.adapterError "Symbol required for order status query.")
  else if !(pmem params "order_id") then
    .error (.adapterError "Order ID required for status query.")
  else
    match vUpper (pgetD params "symbol" .null) with
    | .error e => .error e
    | .ok symbolU =>
      .ok ⟨"GET", endpointOf "order_detail",
        [("category", pgetD params "category" (.str "spot")),
         ("symbol", .str symbolU),
         ("orderId", .str (pyStr (pgetD params "order_id" .null)))], true⟩

/-- `_build_open_orders_request`: open orders query. -/
def buildOpenOrdersRequest (params : Params) : Except PyErr NativeRequest :=
  if pmem params "symbol" then
    match vUpper (pgetD params "symbol" .null) with
    | .error e => .error e
    | .ok u =>
      .ok ⟨"GET", endpointOf "open_orders",
        [("category", pgetD params "category" (.str "spot")), ("symbol", .str u)], true⟩
  else
    .ok ⟨"GET", endpointOf "open_orders",
      [("category", pgetD params "category" (.str "spot"))], true⟩

/-- `_build_balance_request`: wallet balance query. -/
def buildBalanceRequest (params : Params) : Except PyErr NativeRequest :=
  .ok ⟨"GET", endpointOf "wallet_balance",
    [("accountType", pgetD params "account_type" (.str "UNIFIED"))], true⟩

/-- Python `repr` of the supported-action list,
`list(ACTION_MAP.keys())`. -/
def supportedRepr : String :=
  "[" ++ String.intercalate ", " (ACTION_MAP.map (fun kv => "\x27" ++ kv.1 ++ "\x27")) ++ "]"

/-- `to_native`: dispatch a PULSE action and parameter mapping to the
operation's builder. -/
def to_native (action : String) (params : Params) : Except PyErr NativeRequest :=
  match ACTION_MAP.lookup action with
  | none =>
      .error (.adapterError ("Unsupported action \x27" ++ action ++
        "\x27. Supported: " ++ supportedRepr))
  | some operation =>
      if operation == "query" then buildQueryRequest params
      else if operation == "place_order" then buildOrderRequest params
      else if operation == "cancel_order" then buildCancelRequest params
      else if operation == "order_status" then buildStatusRequest params
      else if operation == "open_orders" then buildOpenOrdersRequest params
      else if operation == "wallet_balance" then buildBalanceRequest params
      else .error (.adapterError ("Unknown operation: " ++ operation))

/-! ## Signing -/

/-- The adapter's fixed receive window (`self._recv_window`). -/
def recv_window : String := "20000"

/-- Insert a pair into a key-sorted list. -/
def insertByKey (p : String × PyValue) : Params → Params
  | [] => [p]
  | q :: qs => if (compare p.1 q.1).isLE then p :: q :: qs else q :: insertByKey p qs

/-- `sorted(params.items())`: items sorted by key (keys are unique). -/
def sortedItems : Params → Params
  | [] => []
  | p :: ps => insertByKey p (sortedItems ps)

/-- GET canonical parameter string:
`"&".join(f"k=v" for k, v in sorted(params.items()))`. -/
def getParamStr (ps : Params) : String :=
  String.intercalate "&" ((sortedItems ps).map (fun kv => kv.1 ++ "=" ++ pyStr kv.2))

/-- `_sign_get`: authentication headers for GET requests. The first two
arguments are the configured API key and secret, then the stored clock
offset, the current local time in ms, and the request parameters. -/
def signGet : Option String → Option String → Int → Int → Params →
    Except PyErr (List (String × String))
  | some k, some s, timeOffset, nowMs, params =>
    if k == "" || s == "" then
      .error (.adapterError "API key and secret required for signed requests.")
    else
      let timestamp := toString (nowMs + timeOffset)
      let param_str := getParamStr params
      let sign_str := timestamp ++ k ++ recv_window ++ param_str
      let signature := hmacSha256Hex s sign_str
      .ok [("X-BAPI-API-KEY", k), ("X-BAPI-SIGN", signature),
           ("X-BAPI-TIMESTAMP", timestamp), ("X-BAPI-RECV-WINDOW", recv_window)]
  | _, _, _, _, _ => .error (.adapterError "API key and secret required for signed requests.")

/-- `_sign_post`: authentication headers for POST requests; same argument
order as `signGet`. -/
def signPost : Option String → Option String → Int → Int → Params →
    Except PyErr (List (String × String))
  | some k, some s, timeOffset, nowMs, params =>
    if k == "" || s == "" then
      .error (.adapterError "API key and secret required for signed requests.")
    else
      let timestamp := toString (nowMs + timeOffset)
      let param_str := jsonDumps (.obj params)
      let sign_str := timestamp ++ k ++ recv_window ++ param_str
      let signature := hmacSha256Hex s sign_str
      .ok [("X-BAPI-API-KEY", k), ("X-BAPI-SIGN", signature),
           ("X-BAPI-TIMESTAMP", timestamp), ("X-BAPI-RECV-WINDOW", recv_window),
           ("Content-Type", "application/json")]
  | _, _, _, _, _ => .error (.adapterError "API key and secret required for signed requests.")

/-! ## call_api -/

/-- The transport outcome of one HTTP call: a parsed JSON body, a raised
connection failure, or a raised timeout. -/
inductive Transport where
  | body (data : PyValue)
  | connectionFailure (msg : String)
  | timeoutFailure (msg : String)

/-- `data.get(k, d)` on a parsed JSON object. -/
def jGet (fields : Params) (k : String) (d : PyValue) : PyValue :=
  (fields.lookup k).getD d

/-- Python `ret_code != 0` over the heterogeneous `retCode` value
(`False == 0` holds in Python). -/
def pyNeZero : PyValue → Bool
  | .int n => n ≠ 0
  | .bool b => b
  | _ => true

/-- Body handling and transport-exception translation of `call_api`,
after the HTTP call was issued. A non-object body makes `.get` raise an
`AttributeError`, which the final generic handler wraps in an adapter
error. -/
def handleResponse : Transport → Except PyErr PyValue
  | .connectionFailure m => .error (.adapterConnectionError ("Cannot reach Bybit: " ++ m))
  | .timeoutFailure m => .error (.adapterConnectionError ("Bybit request timed out: " ++ m))
  | .body (.obj fields) =>
      let ret_code := jGet fields "retCode" (.int 0)
      if pyNeZero ret_code then
        .error (.adapterError ("Bybit error " ++ pyStr ret_code ++ ": " ++
          pyStr (jGet fields "retMsg" (.str "Unknown error"))))
      else .ok (jGet fields "result" (.obj fields))
  | .body _ => .error (.adapterError "Bybit request failed: response body is not an object")

/-- `call_api`: execute a native request descriptor against a transport
outcome. Signing failures propagate as adapter errors before any HTTP
traffic; connection failures and timeouts become connection errors. -/
def call_api (apiKey apiSecret : Option String) (timeOffset nowMs : Int)
    (req : NativeRequest) (t : Transport) : Except PyErr PyValue :=
  if req.method == "GET" then
    match (if req.signed then signGet apiKey apiSecret timeOffset nowMs req.params
           else .ok []) with
    | .error e => .error e
    | .ok _headers => handleResponse t
  else if req.method == "POST" then
    match (if req.signed then signPost apiKey apiSecret timeOffset nowMs req.params
           else .ok [("Content-Type", "application/json")]) with
    | .error e => .error e
    | .ok _headers => handleResponse t
  else .error (.adapterError ("Unknown HTTP method: " ++ req.method))

/-! ## Connection state -/

/-- The adapter's explicit connection state: the session handle, the
connected flag, and the other per-instance fields `disconnect` must not
touch. -/
structure AdapterState where
  session : Option Nat
  connected : Bool
  apiKey : Option String
  apiSecret : Option String
  timeOffset : Int
  requestCount : Nat
  deriving DecidableEq

/-- `disconnect`: close and clear the session, mark disconnected. -/
def disconnect (st : AdapterState) : AdapterState :=
  { st with session := none, connected := false }

/-! ## General lemmas -/

/-- A final digest always has 32 bytes. -/
theorem digestBytes_length (st : H8) : (digestBytes st).length = 32 := rfl

/-- SHA-256 digests always have 32 bytes. -/
theorem sha256_length (msg : List Nat) : (sha256 msg).length = 32 :=
  digestBytes_length _

/-- Two hex characters per byte. -/
theorem flatMap_pair_length (bs : List Nat) (f g : Nat → Char) :
    (bs.flatMap fun b => [f b, g b]).length = 2 * bs.length := by
  induction bs with
  | nil => rfl
  | cons b bs ih =>
      simp only [List.flatMap_cons, List.length_append, List.length_cons, ih,
        List.length_nil]
      omega

/-- Hex encoding doubles the byte count. -/
theorem hexOfBytes_length (bs : List Nat) : (hexOfBytes bs).length = 2 * bs.length := by
  unfold hexOfBytes
  have hmk : ∀ cs : List Char, (String.mk cs).length = cs.length := fun _ => rfl
  rw [hmk]
  exact flatMap_pair_length bs _ _

/-- An HMAC-SHA256 hex digest always has 64 characters. -/
theorem hmacSha256Hex_length (secret msg : String) :
    (hmacSha256Hex secret msg).length = 64 := by
  unfold hmacSha256Hex hmacSha256
  rw [hexOfBytes_length, sha256_length]

/-- With nonempty credentials, `_sign_get` returns exactly the four
signing headers. -/
theorem signGet_ok (k s : String) (off now : Int) (ps : Params)
    (hk : k ≠ "") (hs : s ≠ "") :
    signGet (some k) (some s) off now ps =
      .ok [("X-BAPI-API-KEY", k),
           ("X-BAPI-SIGN",
             hmacSha256Hex s (toString (now + off) ++ k ++ recv_window ++ getParamStr ps)),
           ("X-BAPI-TIMESTAMP", toString (now + off)),
           ("X-BAPI-RECV-WINDOW", recv_window)] := by
  have hcond : (k == "" || s == "") = false := by
    simp [hk, hs]
  simp only [signGet, hcond]
  rfl

/-- With nonempty credentials, `_sign_post` returns exactly the four
signing headers plus the content type. -/
theorem signPost_ok (k s : String) (off now : Int) (ps : Params)
    (hk : k ≠ "") (hs : s ≠ "") :
    signPost (some k) (some s) off now ps =
      .ok [("X-BAPI-API-KEY", k),
           ("X-BAPI-SIGN",
             hmacSha256Hex s (toString (now + off) ++ k ++ recv_window ++
               jsonDumps (.obj ps))),
           ("X-BAPI-TIMESTAMP", toString (now + off)),
           ("X-BAPI-RECV-WINDOW", recv_window),
           ("Content-Type", "application/json")] := by
  have hcond : (k == "" || s == "") = false := by
    simp [hk, hs]
  simp only [signPost, hcond]
  rfl

/-- When the method is valid and any required signing succeeds, `call_api`
reduces to response handling of the transport outcome. -/
theorem call_api_eq_handleResponse (apiKey apiSecret : Option String)
    (timeOffset nowMs : Int) (req : NativeRequest) (t : Transport)
    (hm : req.method = "GET" ∨ req.method = "POST")
    (hsig : req.signed = true →
      ∃ k s, apiKey = some k ∧ apiSecret = some s ∧ k ≠ "" ∧ s ≠ "") :
    call_api apiKey apiSecret timeOffset nowMs req t = handleResponse t := by
  rcases hm with hm | hm
  · cases hsgn : req.signed
    · unfold call_api
      rw [hm, hsgn]
      rfl
    · obtain ⟨k, s, hk, hs, hk2, hs2⟩ := hsig hsgn
      unfold call_api
      rw [hm, hsgn, hk, hs, signGet_ok k s timeOffset nowMs req.params hk2 hs2]
      rfl
  · cases hsgn : req.signed
    · unfold call_api
      rw [hm, hsgn]
      rfl
    · obtain ⟨k, s, hk, hs, hk2, hs2⟩ := hsig hsgn
      unfold call_api
      rw [hm, hsgn, hk, hs, signPost_ok k s timeOffset nowMs req.params hk2 hs2]
      rfl

/-- Claim C8: `disconnect` is idempotent on the explicit connection
state — from any state it clears the session handle and the connected
flag, and a second call changes nothing. -/
theorem c8_disconnect_idempotent (st : AdapterState) :
    (disconnect st).session = none ∧ (disconnect st).connected = false ∧
    disconnect (disconnect st) = disconnect st :=
  ⟨rfl, rfl, rfl⟩

/-- Claim C4: with the API key or the API secret absent, both signing
routines fail with the credentials-required adapter error and return no
header mapping. -/
theorem c4_signing_requires_credentials (apiKey apiSecret : Option String)
    (timeOffset nowMs : Int) (params : Params)
    (habs : apiKey = none ∨ apiSecret = none) :
    signGet apiKey apiSecret timeOffset nowMs params =
      .error (.adapterError "API key and secret required for signed requests.") ∧
    signPost apiKey apiSecret timeOffset nowMs params =
      .error (.adapterError "API key and secret required for signed requests.") := by
  rcases habs with h | h <;> subst h
  · cases apiSecret <;> exact ⟨rfl, rfl⟩
  · cases apiKey <;> exact ⟨rfl, rfl⟩

/-- Witness for C4 at a concrete input: key absent, secret present. -/
theorem c4_witness :
    signGet none (some "sec") 0 0 [("symbol", .str "BTCUSDT")] =
      .error (.adapterError "API key and secret required for signed requests.") ∧
    signPost none (some "sec") 0 0 [("symbol", .str "BTCUSDT")] =
      .error (.adapterError "API key and secret required for signed requests.") :=
  c4_signing_requires_credentials none (some "sec") 0 0 [("symbol", .str "BTCUSDT")]
    (Or.inl rfl)

/-- Claim C5: an action outside the six-entry action table fails with an
unsupported-action adapter error naming the action and listing the
supported set, and `supported_actions` is exactly the six actions. -/
theorem c5_unsupported_action (action : String) (params : Params)
    (habs : ACTION_MAP.lookup action = none) :
    to_native action params =
      .error (.adapterError ("Unsupported action \x27" ++ action ++
        "\x27. Supported: " ++ supportedRepr)) ∧
    supportedRepr =
      "[\x27ACT.QUERY.DATA\x27, \x27ACT.QUERY.STATUS\x27, \x27ACT.TRANSACT.REQUEST\x27, \x27ACT.CANCEL\x27, \x27ACT.QUERY.LIST\x27, \x27ACT.QUERY.BALANCE\x27]" ∧
    supported_actions = ["ACT.QUERY.DATA", "ACT.QUERY.STATUS", "ACT.TRANSACT.REQUEST",
      "ACT.CANCEL", "ACT.QUERY.LIST", "ACT.QUERY.BALANCE"] := by
  refine ⟨?_, rfl, rfl⟩
  unfold to_native
  rw [habs]

/-- Witness for C5 at the test suite's unsupported action. -/
theorem c5_witness :
    to_native "ACT.CREATE.TEXT" [] =
      .error (.adapterError ("Unsupported action \x27ACT.CREATE.TEXT\x27. Supported: " ++
        supportedRepr)) :=
  (c5_unsupported_action "ACT.CREATE.TEXT" [] (by rfl)).1

/-- The X-BAPI-SIGN header of a signing result, when signing succeeded. -/
def getSignHeader (r : Except PyErr (List (String × String))) : Option String :=
  match r with
  | .ok hs => hs.lookup "X-BAPI-SIGN"
  | .error _ => none

set_option maxRecDepth 10000 in
/-- Claim C2 as stated is false: on the parameter mapping a=1 the POST
signature is the HMAC over Python default `json.dumps` serialization
(which puts a space after the colon), not over the compact JSON object
the claim describes, and the two signatures differ. -/
theorem c2_counterexample :
    getSignHeader (signPost (some "key") (some "secret") 0 1700000000000 [("a", .int 1)]) ≠
      some (hmacSha256Hex "secret" ("1700000000000" ++ "key" ++ "20000" ++
        specCompactJsonDumps (.obj [("a", .int 1)]))) := by
  decide

/-- Claim C2 (amended): the signature is the hex HMAC-SHA256, keyed by
the secret, of timestamp, api key, recv window and the param string
concatenated; GET params are sorted by key and joined as key=value with
ampersands, POST params are serialized with Python's DEFAULT `json.dumps`
formatting (a space after each comma and colon, key order as provided);
the headers carry the api key, the 64-hex-character signature, the
timestamp and the receive window. -/
theorem c2_signing_formula (k s : String) (timeOffset nowMs : Int) (gp pp : Params)
    (hk : k ≠ "") (hs : s ≠ "") :
    signGet (some k) (some s) timeOffset nowMs gp =
      .ok [("X-BAPI-API-KEY", k),
           ("X-BAPI-SIGN",
             hmacSha256Hex s (toString (nowMs + timeOffset) ++ k ++ "20000" ++
               String.intercalate "&"
                 ((sortedItems gp).map (fun kv => kv.1 ++ "=" ++ pyStr kv.2)))),
           ("X-BAPI-TIMESTAMP", toString (nowMs + timeOffset)),
           ("X-BAPI-RECV-WINDOW", "20000")] ∧
    signPost (some k) (some s) timeOffset nowMs pp =
      .ok [("X-BAPI-API-KEY", k),
           ("X-BAPI-SIGN",
             hmacSha256Hex s (toString (nowMs + timeOffset) ++ k ++ "20000" ++
               jsonDumps (.obj pp))),
           ("X-BAPI-TIMESTAMP", toString (nowMs + timeOffset)),
           ("X-BAPI-RECV-WINDOW", "20000"),
           ("Content-Type", "application/json")] ∧
    (∀ m, (hmacSha256Hex s m).length = 64) :=
  ⟨signGet_ok k s timeOffset nowMs gp hk hs,
   signPost_ok k s timeOffset nowMs pp hk hs,
   fun m => hmacSha256Hex_length s m⟩

/-- Witness for C2 (amended) at concrete credentials and parameters. -/
theorem c2_witness :
    signGet (some "key") (some "secret") 5 1000 [("b", .int 2), ("a", .str "x")] =
      .ok [("X-BAPI-API-KEY", "key"),
           ("X-BAPI-SIGN",
             hmacSha256Hex "secret" (toString ((1000 : Int) + 5) ++ "key" ++ "20000" ++
               String.intercalate "&"
                 ((sortedItems [("b", .int 2), ("a", .str "x")]).map
                   (fun kv => kv.1 ++ "=" ++ pyStr kv.2)))),
           ("X-BAPI-TIMESTAMP", toString ((1000 : Int) + 5)),
           ("X-BAPI-RECV-WINDOW", "20000")] ∧
    signPost (some "key") (some "secret") 5 1000 [("q", .str "1")] =
      .ok [("X-BAPI-API-KEY", "key"),
           ("X-BAPI-SIGN",
             hmacSha256Hex "secret" (toString ((1000 : Int) + 5) ++ "key" ++ "20000" ++
               jsonDumps (.obj [("q", .str "1")]))),
           ("X-BAPI-TIMESTAMP", toString ((1000 : Int) + 5)),
           ("X-BAPI-RECV-WINDOW", "20000"),
           ("Content-Type", "application/json")] ∧
    (∀ m, (hmacSha256Hex "secret" m).length = 64) :=
  c2_signing_formula "key" "secret" 5 1000 [("b", .int 2), ("a", .str "x")]
    [("q", .str "1")] (by decide) (by decide)

/-- Claim C1: `call_api` classifies outcomes by the body's result code —
non-zero retCode raises an adapter error carrying the code and message
text, zero returns the nested result payload (or the whole body without
a `result` key), and transport connection failures and timeouts surface
as the distinct connection error kind. -/
theorem c1_call_api_classification (apiKey apiSecret : Option String)
    (timeOffset nowMs : Int) (req : NativeRequest) (t : Transport)
    (hm : req.method = "GET" ∨ req.method = "POST")
    (hsig : req.signed = true →
      ∃ k s, apiKey = some k ∧ apiSecret = some s ∧ k ≠ "" ∧ s ≠ "") :
    (∀ fields, t = .body (.obj fields) →
      (pyNeZero (jGet fields "retCode" (.int 0)) = true →
        call_api apiKey apiSecret timeOffset nowMs req t =
          .error (.adapterError ("Bybit error " ++ pyStr (jGet fields "retCode" (.int 0)) ++
            ": " ++ pyStr (jGet fields "retMsg" (.str "Unknown error"))))) ∧
      (pyNeZero (jGet fields "retCode" (.int 0)) = false →
        call_api apiKey apiSecret timeOffset nowMs req t =
          .ok (jGet fields "result" (.obj fields)))) ∧
    (∀ m, t = .connectionFailure m →
      call_api apiKey apiSecret timeOffset nowMs req t =
        .error (.adapterConnectionError ("Cannot reach Bybit: " ++ m))) ∧
    (∀ m, t = .timeoutFailure m →
      call_api apiKey apiSecret timeOffset nowMs req t =
        .error (.adapterConnectionError ("Bybit request timed out: " ++ m))) ∧
    (∀ m m2, PyErr.adapterConnectionError m ≠ PyErr.adapterError m2) := by
  have hca := call_api_eq_handleResponse apiKey apiSecret timeOffset nowMs req t hm hsig
  refine ⟨?_, ?_, ?_, ?_⟩
  · intro fields ht
    subst ht
    constructor
    · intro hcode
      rw [hca]
      simp [handleResponse, hcode]
    · intro hcode
      rw [hca]
      simp [handleResponse, hcode]
  · intro m ht
    subst ht
    rw [hca]
    rfl
  · intro m ht
    subst ht
    rw [hca]
    rfl
  · intro m m2 h
    exact PyErr.noConfusion h

/-- Witness for C1: an unsigned GET whose body reports retCode 10001. -/
theorem c1_witness :
    call_api none none 0 0 ⟨"GET", "/v5/market/tickers", [], false⟩
        (.body (.obj [("retCode", .int 10001), ("retMsg", .str "Invalid symbol")])) =
      .error (.adapterError "Bybit error 10001: Invalid symbol") := by
  have h := c1_call_api_classification none none 0 0
      ⟨"GET", "/v5/market/tickers", [], false⟩
      (.body (.obj [("retCode", .int 10001), ("retMsg", .str "Invalid symbol")]))
      (Or.inl rfl) (fun hc => Bool.noConfusion hc)
  exact (h.1 _ rfl).1 (by decide)

/-- Claim C9: a body with no retCode key is a success (the code defaults
to zero), and the whole-body fallback is triggered exactly by absence of
the `result` key — a present `result`, even null or empty, is returned
itself. -/
theorem c9_result_fallback (apiKey apiSecret : Option String)
    (timeOffset nowMs : Int) (req : NativeRequest) (fields : Params)
    (hm : req.method = "GET" ∨ req.method = "POST")
    (hsig : req.signed = true →
      ∃ k s, apiKey = some k ∧ apiSecret = some s ∧ k ≠ "" ∧ s ≠ "")
    (hnoRet : fields.lookup "retCode" = none) :
    call_api apiKey apiSecret timeOffset nowMs req (.body (.obj fields)) =
      .ok (jGet fields "result" (.obj fields)) ∧
    (∀ v, fields.lookup "result" = some v →
      call_api apiKey apiSecret timeOffset nowMs req (.body (.obj fields)) = .ok v) ∧
    (fields.lookup "result" = none →
      call_api apiKey apiSecret timeOffset nowMs req (.body (.obj fields)) =
        .ok (.obj fields)) := by
  have hca := call_api_eq_handleResponse apiKey apiSecret timeOffset nowMs req
    (.body (.obj fields)) hm hsig
  have hz : pyNeZero (jGet fields "retCode" (.int 0)) = false := by
    unfold jGet
    rw [hnoRet]
    rfl
  refine ⟨?_, ?_, ?_⟩
  · rw [hca]
    simp [handleResponse, hz]
  · intro v hv
    rw [hca]
    simp [handleResponse, jGet, pyNeZero, hnoRet, hv]
  · intro hv
    rw [hca]
    simp [handleResponse, jGet, pyNeZero, hnoRet, hv]

/-- Witness for C9: a body whose `result` key is present but null comes
back as null, not as the whole body. -/
theorem c9_witness :
    call_api none none 0 0 ⟨"GET", "/v5/market/tickers", [], false⟩
        (.body (.obj [("result", PyValue.null)])) = .ok PyValue.null := by
  have h := c9_result_fallback none none 0 0 ⟨"GET", "/v5/market/tickers", [], false⟩
      [("result", PyValue.null)] (Or.inl rfl) (fun hc => Bool.noConfusion hc) (by rfl)
  exact h.2.1 PyValue.null (by rfl)

/-- Claim C3: order placement requires symbol, side and quantity, naming
the missing field; side normalizes case-insensitively to Buy/Sell; the
order type defaults to market; a LIMIT order requires a price and then
defaults timeInForce to GTC; quantity and price are serialized as
strings; the descriptor is a signed POST. -/
theorem c3_place_order :
    (∀ params : Params, params.lookup "symbol" = none →
      buildOrderRequest params =
        .error (.adapterError "Missing required field \x27symbol\x27 for order placement.")) ∧
    (∀ (params : Params) (w : PyValue), params.lookup "symbol" = some w →
      params.lookup "side" = none →
      buildOrderRequest params =
        .error (.adapterError "Missing required field \x27side\x27 for order placement.")) ∧
    (∀ (params : Params) (w w2 : PyValue), params.lookup "symbol" = some w →
      params.lookup "side" = some w2 → params.lookup "quantity" = none →
      buildOrderRequest params =
        .error (.adapterError "Missing required field \x27quantity\x27 for order placement.")) ∧
    (∀ (params : Params) (sy sd : String) (q : PyValue),
      params.lookup "symbol" = some (.str sy) → params.lookup "side" = some (.str sd) →
      params.lookup "quantity" = some q → params.lookup "order_type" = none →
      buildOrderRequest params =
        .ok ⟨"POST", "/v5/order/create",
          [("category", pgetD params "category" (.str "spot")),
           ("symbol", .str (pyUpper sy)),
           ("side", .str (if pyUpper sd == "BUY" then "Buy" else "Sell")),
           ("orderType", .str "Market"),
           ("qty", .str (pyStr q))], true⟩) ∧
    (∀ (params : Params) (sy sd ot : String) (q : PyValue),
      params.lookup "symbol" = some (.str sy) → params.lookup "side" = some (.str sd) →
      params.lookup "quantity" = some q → params.lookup "order_type" = some (.str ot) →
      pyUpper ot = "LIMIT" → params.lookup "price" = none →
      buildOrderRequest params = .error (.adapterError "Price required for LIMIT orders.")) ∧
    (∀ (params : Params) (sy sd ot : String) (q p : PyValue),
      params.lookup "symbol" = some (.str sy) → params.lookup "side" = some (.str sd) →
      params.lookup "quantity" = some q → params.lookup "order_type" = some (.str ot) →
      pyUpper ot = "LIMIT" → params.lookup "price" = some p →
      params.lookup "time_in_force" = none →
      buildOrderRequest params =
        .ok ⟨"POST", "/v5/order/create",
          [("category", pgetD params "category" (.str "spot")),
           ("symbol", .str (pyUpper sy)),
           ("side", .str (if pyUpper sd == "BUY" then "Buy" else "Sell")),
           ("orderType", .str "Limit"),
           ("qty", .str (pyStr q)),
           ("price", .str (pyStr p)),
           ("timeInForce", .str "GTC")], true⟩) := by
  refine ⟨?_, ?_, ?_, ?_, ?_, ?_⟩
  · intro params hsy
    simp [buildOrderRequest, pmem, pget, hsy]
  · intro params w hsy hsd
    simp [buildOrderRequest, pmem, pget, hsy, hsd]
  · intro params w w2 hsy hsd hq
    simp [buildOrderRequest, pmem, pget, hsy, hsd, hq]
  · intro params sy sd q hsy hsd hq hot
    have hML : (pyUpper "Market" == "LIMIT") = false := by decide
    simp [buildOrderRequest, pmem, pget, pgetD, vUpper, endpointOf, ENDPOINTS,
      hsy, hsd, hq, hot, hML]
    rfl
  · intro params sy sd ot q hsy hsd hq hot hlim hpr
    simp [buildOrderRequest, pmem, pget, pgetD, vUpper, hsy, hsd, hq, hot, hlim, hpr]
  · intro params sy sd ot q p hsy hsd hq hot hlim hpr htif
    simp [buildOrderRequest, pmem, pget, pgetD, vUpper, endpointOf, ENDPOINTS,
      hsy, hsd, hq, hot, hlim, hpr, htif]
    rfl

/-- Witness for C3: a concrete LIMIT buy order with a price and the
default time in force. -/
theorem c3_witness :
    buildOrderRequest
        [("symbol", .str "ethusdt"), ("side", .str "BUY"), ("quantity", .int 1),
         ("order_type", .str "LIMIT"), ("price", .int 2000)] =
      .ok ⟨"POST", "/v5/order/create",
        [("category", pgetD [("symbol", PyValue.str "ethusdt"), ("side", .str "BUY"),
            ("quantity", .int 1), ("order_type", .str "LIMIT"), ("price", .int 2000)]
            "category" (.str "spot")),
         ("symbol", .str (pyUpper "ethusdt")),
         ("side", .str (if pyUpper "BUY" == "BUY" then "Buy" else "Sell")),
         ("orderType", .str "Limit"),
         ("qty", .str (pyStr (.int 1))),
         ("price", .str (pyStr (.int 2000))),
         ("timeInForce", .str "GTC")], true⟩ :=
  c3_place_order.2.2.2.2.2
    [("symbol", .str "ethusdt"), ("side", .str "BUY"), ("quantity", .int 1),
     ("order_type", .str "LIMIT"), ("price", .int 2000)]
    "ethusdt" "BUY" "LIMIT" (.int 1) (.int 2000)
    rfl rfl rfl rfl (by decide) rfl rfl

/-- Claim C10: any order type whose upper-cased form is not LIMIT is
copied into the descriptor verbatim with no case normalization; only an
upper-cased LIMIT becomes the literal Limit; an absent order type
defaults to the literal Market. -/
theorem c10_order_type_verbatim :
    (∀ (params : Params) (sy sd : String) (q : PyValue),
      params.lookup "symbol" = some (.str sy) → params.lookup "side" = some (.str sd) →
      params.lookup "quantity" = some q → params.lookup "order_type" = none →
      ∃ d, buildOrderRequest params = .ok d ∧
        d.params.lookup "orderType" = some (.str "Market")) ∧
    (∀ (params : Params) (sy sd ot : String) (q : PyValue),
      params.lookup "symbol" = some (.str sy) → params.lookup "side" = some (.str sd) →
      params.lookup "quantity" = some q → params.lookup "order_type" = some (.str ot) →
      (pyUpper ot == "LIMIT") = false →
      ∃ d, buildOrderRequest params = .ok d ∧
        d.params.lookup "orderType" = some (.str ot)) ∧
    (∀ (params : Params) (sy sd ot : String) (q p : PyValue),
      params.lookup "symbol" = some (.str sy) → params.lookup "side" = some (.str sd) →
      params.lookup "quantity" = some q → params.lookup "order_type" = some (.str ot) →
      pyUpper ot = "LIMIT" → params.lookup "price" = some p →
      ∃ d, buildOrderRequest params = .ok d ∧
        d.params.lookup "orderType" = some (.str "Limit")) := by
  refine ⟨?_, ?_, ?_⟩
  · intro params sy sd q hsy hsd hq hot
    have hML : (pyUpper "Market" == "LIMIT") = false := by decide
    have hb : buildOrderRequest params =
        .ok ⟨"POST", endpointOf "place_order",
          [("category", pgetD params "category" (.str "spot")),
           ("symbol", .str (pyUpper sy)),
           ("side", .str (if pyUpper sd == "BUY" then "Buy" else "Sell")),
           ("orderType", .str "Market"),
           ("qty", .str (pyStr q))], true⟩ := by
      simp [buildOrderRequest, pmem, pget, pgetD, vUpper, hsy, hsd, hq, hot, hML]
    exact ⟨_, hb, by rfl⟩
  · intro params sy sd ot q hsy hsd hq hot hne
    have hb : buildOrderRequest params =
        .ok ⟨"POST", endpointOf "place_order",
          [("category", pgetD params "category" (.str "spot")),
           ("symbol", .str (pyUpper sy)),
           ("side", .str (if pyUpper sd == "BUY" then "Buy" else "Sell")),
           ("orderType", .str ot),
           ("qty", .str (pyStr q))], true⟩ := by
      simp [buildOrderRequest, pmem, pget, pgetD, vUpper, hsy, hsd, hq, hot, hne]
    exact ⟨_, hb, by rfl⟩
  · intro params sy sd ot q p hsy hsd hq hot hlim hpr
    have hb : buildOrderRequest params =
        .ok ⟨"POST", endpointOf "place_order",
          [("category", pgetD params "category" (.str "spot")),
           ("symbol", .str (pyUpper sy)),
           ("side", .str (if pyUpper sd == "BUY" then "Buy" else "Sell")),
           ("orderType", .str "Limit"),
           ("qty", .str (pyStr q)),
           ("price", .str (pyStr p)),
           ("timeInForce", pgetD params "time_in_force" (.str "GTC"))], true⟩ := by
      simp [buildOrderRequest, pmem, pget, pgetD, vUpper, hsy, hsd, hq, hot, hlim, hpr]
    exact ⟨_, hb, by rfl⟩

/-- Witness for C10: the lowercase order type market is copied verbatim,
not normalized. -/
theorem c10_witness :
    ∃ d, buildOrderRequest
        [("symbol", .str "BTCUSDT"), ("side", .str "BUY"), ("quantity", .int 1),
         ("order_type", .str "market")] = .ok d ∧
      d.params.lookup "orderType" = some (.str "market") :=
  c10_order_type_verbatim.2.1
    [("symbol", .str "BTCUSDT"), ("side", .str "BUY"), ("quantity", .int 1),
     ("order_type", .str "market")]
    "BTCUSDT" "BUY" "market" (.int 1) rfl rfl rfl rfl (by decide)

/-- Claim C6: the market-query builder rejects unknown query types with
an error naming the allowed values; klines and depth without a symbol
fail with a symbol-required error; successful descriptors are unsigned
GETs, category defaults to spot, klines carries interval defaulting to
60 and limit defaulting to 100, and depth carries limit defaulting
to 20. -/
theorem c6_market_query (params : Params) :
    (∀ v, pgetD params "type" (.str "price") = v →
      pyEqStr v "price" = false → pyEqStr v "24h" = false →
      pyEqStr v "klines" = false → pyEqStr v "depth" = false →
      buildQueryRequest params =
        .error (.adapterError ("Unknown query type \x27" ++ pyStr v ++
          "\x27. Use: price, 24h, klines, depth."))) ∧
    (params.lookup "symbol" = none →
      pgetD params "type" (.str "price") = .str "klines" →
      buildQueryRequest params =
        .error (.adapterError "Symbol required for klines query.")) ∧
    (params.lookup "symbol" = none →
      pgetD params "type" (.str "price") = .str "depth" →
      buildQueryRequest params =
        .error (.adapterError "Symbol required for depth query.")) ∧
    (∀ d, buildQueryRequest params = .ok d →
      d.method = "GET" ∧ d.signed = false ∧
      (params.lookup "category" = none →
        d.params.lookup "category" = some (.str "spot"))) ∧
    (∀ d, buildQueryRequest params = .ok d →
      pgetD params "type" (.str "price") = .str "klines" →
      (params.lookup "interval" = none →
        d.params.lookup "interval" = some (.str "60")) ∧
      (params.lookup "limit" = none →
        d.params.lookup "limit" = some (.int 100))) ∧
    (∀ d, buildQueryRequest params = .ok d →
      pgetD params "type" (.str "price") = .str "depth" →
      params.lookup "limit" = none →
      d.params.lookup "limit" = some (.int 20)) := by
  refine ⟨?_, ?_, ?_, ?_, ?_, ?_⟩
  · intro v hv h1 h2 h3 h4
    simp only [buildQueryRequest]
    rw [hv, h1, h2, h3, h4]
    simp
  · intro hsym htype
    simp only [buildQueryRequest]
    rw [htype]
    simp [pyEqStr, pget, hsym]
  · intro hsym htype
    simp only [buildQueryRequest]
    rw [htype]
    simp [pyEqStr, pget, hsym]
  · intro d hd
    simp only [buildQueryRequest] at hd
    repeat' split at hd
    all_goals first
      | exact Except.noConfusion hd
      | (injection hd with h
         subst h
         refine ⟨rfl, rfl, fun hcat => ?_⟩
         simp [List.lookup, pgetD, pget, hcat])
  · intro d hd htype
    simp only [buildQueryRequest] at hd
    rw [htype] at hd
    simp only [pyEqStr] at hd
    simp at hd
    repeat' split at hd
    all_goals first
      | exact Except.noConfusion hd
      | (injection hd with h
         subst h
         constructor <;> (intro habs; simp [List.lookup, pgetD, pget, habs]))
  · intro d hd htype habs
    simp only [buildQueryRequest] at hd
    rw [htype] at hd
    simp only [pyEqStr] at hd
    simp at hd
    repeat' split at hd
    all_goals first
      | exact Except.noConfusion hd
      | (injection hd with h
         subst h
         simp [List.lookup, pgetD, pget, habs])

/-- Witness for C6: a klines query without a symbol fails. -/
theorem c6_witness :
    buildQueryRequest [("type", PyValue.str "klines")] =
      .error (.adapterError "Symbol required for klines query.") :=
  (c6_market_query [("type", PyValue.str "klines")]).2.1 rfl rfl

/-- `vUpper` succeeds exactly on strings, returning the upper-cased
string. -/
theorem vUpper_ok (v : PyValue) (u : String) (h : vUpper v = .ok u) :
    ∃ s, v = .str s ∧ u = pyUpper s := by
  cases v <;> simp [vUpper] at h
  case str s => exact ⟨s, rfl, h.symm⟩

/-- A key that is present and whose defaulted read gives `w` is bound
to `w`. -/
theorem pget_of_pgetD (ps : Params) (k : String) (dv w : PyValue)
    (hmem : pmem ps k = true) (hval : pgetD ps k dv = w) :
    pget ps k = some w := by
  unfold pmem at hmem
  unfold pgetD at hval
  unfold pget
  cases h : List.lookup k ps with
  | none =>
      rw [h] at hmem
      exact Bool.noConfusion hmem
  | some u =>
      rw [h] at hval
      simp at hval
      rw [hval]

/-- Market-query descriptors carry the upper-cased input symbol. -/
theorem buildQuery_symbol (params : Params) (d : NativeRequest) (v : PyValue)
    (hok : buildQueryRequest params = .ok d)
    (hsym : d.params.lookup "symbol" = some v) :
    ∃ s, pget params "symbol" = some (.str s) ∧ v = .str (pyUpper s) := by
  simp only [buildQueryRequest] at hok
  repeat' split at hok
  all_goals first
    | exact Except.noConfusion hok
    | (injection hok with h
       subst h
       simp [List.lookup] at hsym
       done)
    | (injection hok with h
       subst h
       rename_i u hequ
       simp [List.lookup] at hsym
       obtain ⟨s, hvs, hus⟩ := vUpper_ok _ u hequ
       subst hvs
       exact ⟨s, by assumption, by rw [← hsym, hus]⟩)

/-- Order-placement descriptors carry the upper-cased input symbol. -/
theorem buildOrder_symbol (params : Params) (d : NativeRequest) (v : PyValue)
    (hok : buildOrderRequest params = .ok d)
    (hsym : d.params.lookup "symbol" = some v) :
    ∃ s, pget params "symbol" = some (.str s) ∧ v = .str (pyUpper s) := by
  simp only [buildOrderRequest] at hok
  repeat' split at hok
  all_goals first
    | exact Except.noConfusion hok
    | (injection hok with h
       subst h
       simp [List.lookup] at hsym
       obtain ⟨s, hvs, hus⟩ :=
         vUpper_ok (pgetD params "symbol" PyValue.null) _ (by assumption)
       have hmem : pmem params "symbol" = true := by
         first
         | assumption
         | simpa using (show ¬((!pmem params "symbol") = true) from by assumption)
       exact ⟨s, pget_of_pgetD params "symbol" .null _ hmem hvs, by rw [← hsym, hus]⟩)

/-- Cancel descriptors carry the upper-cased input symbol. -/
theorem buildCancel_symbol (params : Params) (d : NativeRequest) (v : PyValue)
    (hok : buildCancelRequest params = .ok d)
    (hsym : d.params.lookup "symbol" = some v) :
    ∃ s, pget params "symbol" = some (.str s) ∧ v = .str (pyUpper s) := by
  simp only [buildCancelRequest] at hok
  repeat' split at hok
  all_goals first
    | exact Except.noConfusion hok
    | (injection hok with h
       subst h
       simp [List.lookup] at hsym
       obtain ⟨s, hvs, hus⟩ :=
         vUpper_ok (pgetD params "symbol" PyValue.null) _ (by assumption)
       have hmem : pmem params "symbol" = true := by
         first
         | assumption
         | simpa using (show ¬((!pmem params "symbol") = true) from by assumption)
       exact ⟨s, pget_of_pgetD params "symbol" .null _ hmem hvs, by rw [← hsym, hus]⟩)

/-- Order-status descriptors carry the upper-cased input symbol. -/
theorem buildStatus_symbol (params : Params) (d : NativeRequest) (v : PyValue)
    (hok : buildStatusRequest params = .ok d)
    (hsym : d.params.lookup "symbol" = some v) :
    ∃ s, pget params "symbol" = some (.str s) ∧ v = .str (pyUpper s) := by
  simp only [buildStatusRequest] at hok
  repeat' split at hok
  all_goals first
    | exact Except.noConfusion hok
    | (injection hok with h
       subst h
       simp [List.lookup] at hsym
       obtain ⟨s, hvs, hus⟩ :=
         vUpper_ok (pgetD params "symbol" PyValue.null) _ (by assumption)
       have hmem : pmem params "symbol" = true := by
         first
         | assumption
         | simpa using (show ¬((!pmem params "symbol") = true) from by assumption)
       exact ⟨s, pget_of_pgetD params "symbol" .null _ hmem hvs, by rw [← hsym, hus]⟩)

/-- Open-orders descriptors carry the upper-cased input symbol. -/
theorem buildOpenOrders_symbol (params : Params) (d : NativeRequest) (v : PyValue)
    (hok : buildOpenOrdersRequest params = .ok d)
    (hsym : d.params.lookup "symbol" = some v) :
    ∃ s, pget params "symbol" = some (.str s) ∧ v = .str (pyUpper s) := by
  simp only [buildOpenOrdersRequest] at hok
  repeat' split at hok
  all_goals first
    | exact Except.noConfusion hok
    | (injection hok with h
       subst h
       simp [List.lookup] at hsym
       done)
    | (injection hok with h
       subst h
       simp [List.lookup] at hsym
       obtain ⟨s, hvs, hus⟩ :=
         vUpper_ok (pgetD params "symbol" PyValue.null) _ (by assumption)
       have hmem : pmem params "symbol" = true := by assumption
       exact ⟨s, pget_of_pgetD params "symbol" .null _ hmem hvs, by rw [← hsym, hus]⟩)

/-- Balance descriptors never contain a symbol field. -/
theorem buildBalance_symbol (params : Params) (d : NativeRequest) (v : PyValue)
    (hok : buildBalanceRequest params = .ok d)
    (hsym : d.params.lookup "symbol" = some v) :
    ∃ s, pget params "symbol" = some (.str s) ∧ v = .str (pyUpper s) := by
  injection hok with h
  subst h
  simp [List.lookup] at hsym

/-- Claim C7: across all six operations, whenever a successful native
descriptor contains a symbol field, it equals the upper-cased input
symbol. -/
theorem c7_symbol_uppercased (action : String) (params : Params)
    (d : NativeRequest) (v : PyValue)
    (hok : to_native action params = .ok d)
    (hsym : d.params.lookup "symbol" = some v) :
    ∃ s, pget params "symbol" = some (.str s) ∧ v = .str (pyUpper s) := by
  unfold to_native at hok
  repeat' split at hok
  all_goals first
    | exact Except.noConfusion hok
    | exact buildQuery_symbol params d v hok hsym
    | exact buildOrder_symbol params d v hok hsym
    | exact buildCancel_symbol params d v hok hsym
    | exact buildStatus_symbol params d v hok hsym
    | exact buildOpenOrders_symbol params d v hok hsym
    | exact buildBalance_symbol params d v hok hsym

/-- Witness for C7: the lowercase symbol btcusdt appears upper-cased in
the price-query descriptor. -/
theorem c7_witness :
    ∃ s, pget [("symbol", PyValue.str "btcusdt")] "symbol" = some (.str s) ∧
      PyValue.str "BTCUSDT" = .str (pyUpper s) :=
  c7_symbol_uppercased "ACT.QUERY.DATA" [("symbol", PyValue.str "btcusdt")]
    ⟨"GET", "/v5/market/tickers",
     [("category", PyValue.str "spot"), ("symbol", PyValue.str "BTCUSDT")], false⟩
    (PyValue.str "BTCUSDT") (by rfl) (by rfl)
